import Mathlib

/-!
Shallow embedding of the core layout engine of `reportbro/reportbro.py`
(bands, pagination, document geometry, PDF/XLSX render orchestration),
together with theorems checking the natural-language specification of the
library against this code.

External collaborators (the element variants of `elements.py`, the pdf and
xlsx sinks) are not part of the embedded source file; where a definition
depends on them it is modelled from the spec's description of the element
capability interface and marked as such in its doc comment.
-/

namespace ReportBro

/-- Band kinds, from `BandType` (content / header / footer). -/
inductive BandType where
  | content
  | header
  | footer
deriving DecidableEq, Repr

/-- Per-band display policy, from `BandDisplay`. -/
inductive BandDisplay where
  | always
  | never
  | not_on_first_page
deriving DecidableEq, Repr

/-- Page formats understood by `DocumentProperties.__init__`. -/
inductive PageFormat where
  | a4
  | a5
  | letter
  | user_defined
deriving DecidableEq, Repr

/-- Page orientation, from `Orientation`. -/
inductive Orientation where
  | portrait
  | landscape
deriving DecidableEq, Repr

/-- Measurement unit for custom page sizes, from `Unit` (named `PageUnit`
here because `Unit` is taken by Lean). -/
inductive PageUnit where
  | mm
  | inch
deriving DecidableEq, Repr

/-- A collected validation error record, from `Error(msg, object_id, field)`. -/
structure Error' where
  msg : String
  objectId : String
  field : String
deriving DecidableEq, Repr

/-- The typed input read by `DocumentProperties.__init__` from the
`documentProperties` dict (`data.get(...)` / `get_int_value`). -/
structure DocData where
  pageFormat : PageFormat
  orientation : Orientation
  pageWidth : Int
  pageHeight : Int
  unit : PageUnit
  contentHeight : Int
  marginLeft : Int
  marginTop : Int
  marginRight : Int
  marginBottom : Int
  patternLocale : String
  patternCurrencySymbol : String
  header : Bool
  headerDisplay : BandDisplay
  headerSize : Int
  footer : Bool
  footerDisplay : BandDisplay
  footerSize : Int
deriving DecidableEq, Repr

/-- The constructed document geometry, from the fields set by
`DocumentProperties.__init__`. -/
structure DocumentProperties where
  pageWidth : Int
  pageHeight : Int
  contentHeight : Int
  marginLeft : Int
  marginTop : Int
  marginRight : Int
  marginBottom : Int
  patternLocale : String
  patternCurrencySymbol : String
  header : Bool
  headerDisplay : BandDisplay
  headerSize : Int
  footer : Bool
  footerDisplay : BandDisplay
  footerSize : Int
deriving DecidableEq, Repr

/-- Pre-DPI page dimensions and unit resolved from the page format
(lines 352-389 of `DocumentProperties.__init__`); dimensions are rationals
because the letter format uses 8.5 inch. -/
def resolvePageSize (data : DocData) : ℚ × ℚ × PageUnit :=
  match data.pageFormat with
  | PageFormat.a4 =>
      match data.orientation with
      | Orientation.portrait => (210, 297, PageUnit.mm)
      | Orientation.landscape => (297, 210, PageUnit.mm)
  | PageFormat.a5 =>
      match data.orientation with
      | Orientation.portrait => (148, 210, PageUnit.mm)
      | Orientation.landscape => (210, 148, PageUnit.mm)
  | PageFormat.letter =>
      match data.orientation with
      | Orientation.portrait => (17/2, 11, PageUnit.inch)
      | Orientation.landscape => (11, 17/2, PageUnit.inch)
  | PageFormat.user_defined => ((data.pageWidth : ℚ), (data.pageHeight : ℚ), data.unit)

/-- The page-size plausibility errors appended for a custom page format
(lines 380-389): for mm the width must lie in [100, 100000), for inch in
[1, 1000); the height is checked by an `elif`, i.e. only when the width
check passed. -/
def pageSizeErrors (unit : PageUnit) (pageWidth pageHeight : Int) : List Error' :=
  match unit with
  | PageUnit.mm =>
      if pageWidth < 100 ∨ pageWidth ≥ 100000 then
        [⟨"errorMsgInvalidPageSize", "0_document_properties", "page"⟩]
      else if pageHeight < 100 ∨ pageHeight ≥ 100000 then
        [⟨"errorMsgInvalidPageSize", "0_document_properties", "page"⟩]
      else []
  | PageUnit.inch =>
      if pageWidth < 1 ∨ pageWidth ≥ 1000 then
        [⟨"errorMsgInvalidPageSize", "0_document_properties", "page"⟩]
      else if pageHeight < 1 ∨ pageHeight ≥ 1000 then
        [⟨"errorMsgInvalidPageSize", "0_document_properties", "page"⟩]
      else []

/-- `DocumentProperties.__init__`. Returns the error records appended to
`report.errors` (they are appended before any raise and thus survive it)
together with either the constructed properties or the message of the
`RuntimeError` raised for an unsupported `patternLocale`. Python's
banker's `round` is modelled by `round` (round half up), which agrees on
every value whose scaled size is not an exact half. -/
def documentPropertiesInit (data : DocData) : List Error' × Except String DocumentProperties :=
  let res := resolvePageSize data
  let w0 := res.1
  let h0 := res.2.1
  let unit := res.2.2
  let errors :=
    if data.pageFormat = PageFormat.user_defined then
      pageSizeErrors unit data.pageWidth data.pageHeight
    else []
  let dpi : ℚ := 72
  let pageWidth : Int :=
    match unit with
    | PageUnit.mm => round ((dpi * w0) / (254/10))
    | PageUnit.inch => round (dpi * w0)
  let pageHeight : Int :=
    match unit with
    | PageUnit.mm => round ((dpi * h0) / (254/10))
    | PageUnit.inch => round (dpi * h0)
  if data.patternLocale ∈ ["de", "en", "es", "fr", "it"] then
    let headerDisplay := if data.header then data.headerDisplay else BandDisplay.never
    let headerSize := if data.header then data.headerSize else 0
    let footerDisplay := if data.footer then data.footerDisplay else BandDisplay.never
    let footerSize := if data.footer then data.footerSize else 0
    let contentHeight :=
      if data.contentHeight = 0 then
        pageHeight - headerSize - footerSize - data.marginTop - data.marginBottom
      else data.contentHeight
    (errors, Except.ok
      { pageWidth := pageWidth
        pageHeight := pageHeight
        contentHeight := contentHeight
        marginLeft := data.marginLeft
        marginTop := data.marginTop
        marginRight := data.marginRight
        marginBottom := data.marginBottom
        patternLocale := data.patternLocale
        patternCurrencySymbol := data.patternCurrencySymbol
        header := data.header
        headerDisplay := headerDisplay
        headerSize := headerSize
        footer := data.footer
        footerDisplay := footerDisplay
        footerSize := footerSize })
  else
    (errors, Except.error "invalid pattern_locale")

/-- `DocumentXLSXRenderer.render` (lines 327-338). Band row emission
(`render_band` = `band.prepare(ctx)` followed by
`band.render_spreadsheet(row, ...)`, whose cell output goes to the external
worksheet sink) is abstracted as a function from the incoming row cursor to
the next free row. The result is the final row cursor together with the
order in which bands were emitted. Note that the source guards the footer
band with `header_display` (line 331), not `footer_display`. -/
def xlsxRender (headerDisplay : BandDisplay)
    (emitHeader emitContent emitFooter : Nat → Nat) : Nat × List BandType :=
  let r0 : Nat := 0
  let s1 :=
    if headerDisplay ≠ BandDisplay.never then (emitHeader r0, [BandType.header])
    else (r0, ([] : List BandType))
  let r2 := emitContent s1.1
  let s3 :=
    if headerDisplay ≠ BandDisplay.never then (emitFooter r2, [BandType.footer])
    else (r2, ([] : List BandType))
  (s3.1, s1.2 ++ [BandType.content] ++ s3.2)

/-- Modelled from the spec: one response of the element capability's
`nextFragment(offset, availableHeight, context) -> (fragment?, complete)`
(spec §6); `usedHeight` is the vertical extent the fragment consumes, so
the element's `render_bottom` becomes `offset + usedHeight`. -/
structure FragSpec where
  hasFrag : Bool
  complete : Bool
  usedHeight : Int
deriving DecidableEq, Repr

/-- Modelled from the spec: a positioned content unit of the element
capability interface (spec §6) as consumed by `Container`/`ReportBand`.
Static geometry (`x`, `y`, `height`, `sortOrder`), the page-break marker
flag (`PageBreakElement`), the spreadsheet-hide flag, the per-pass dynamic
state mutated by the band (`firstRenderElement`, `renderingComplete`,
`renderBottom`, `predecessorId`), the visibility answer `printed`
(`is_printed(ctx)` for the pass's fixed context), and a script of
`nextFragment` responses standing in for the element-variant-specific
splitting logic of `elements.py`. -/
structure DocElement where
  id : Nat
  x : Int
  y : Int
  height : Int
  sortOrder : Nat
  isPageBreak : Bool
  spreadsheetHide : Bool
  printed : Bool
  firstRenderElement : Bool
  renderingComplete : Bool
  renderBottom : Int
  predecessorId : Option Nat
  script : List FragSpec
deriving DecidableEq, Repr

/-- `elem.bottom`: bottom edge of the element's declared position. -/
def DocElement.bottom (e : DocElement) : Int := e.y + e.height

/-- The predecessor scan of `ReportBand.prepare` (lines 100-104): walk the
elements above the current one from nearest to farthest (index `i-1` down
to `0`), keeping the candidate whose bottom edge is `≤` the element's top
and strictly greater than the best so far. `seen` is the list still to be
scanned (already reversed), `pred` the best candidate so far. -/
def predecessorScanAux (e : DocElement) : List DocElement → Option DocElement → Option DocElement
  | [], pred => pred
  | e2 :: rest, pred =>
      if e2.bottom ≤ e.y ∧ (∀ p, pred = some p → p.bottom < e2.bottom) then
        predecessorScanAux e rest (some e2)
      else predecessorScanAux e rest pred

/-- The full scan over the elements positioned before `e` in sorted order. -/
def predecessorScan (above : List DocElement) (e : DocElement) : Option DocElement :=
  predecessorScanAux e above.reverse none

/-- The predecessor id stored by `ReportBand.prepare` (lines 105-106): the
scan winner's id, unless the winner is a `PageBreakElement` or there is no
winner, in which case `set_predecessor` is not called and the element keeps
its previous link. -/
def assignedPredecessorId (above : List DocElement) (e : DocElement) : Option Nat :=
  match predecessorScan above e with
  | some p => if p.isPageBreak then e.predecessorId else some p.id
  | none => e.predecessorId

/-- The claim's reading of the scan: page-break markers are skipped as
candidates while scanning, so a non-page-break element above can win even
when a page-break marker has a greater qualifying bottom edge. -/
def skipPageBreakPredecessorId (above : List DocElement) (e : DocElement) : Option Nat :=
  match predecessorScan (above.filter (fun q => ¬q.isPageBreak)) e with
  | some p => some p.id
  | none => e.predecessorId

/-- Predecessor assignment pass of `ReportBand.prepare` (lines 98-106):
for each element of the sorted list, scan the elements before it.
`above` accumulates the already-processed prefix (in order). -/
def assignPredecessors : List DocElement → List DocElement → List DocElement
  | _, [] => []
  | above, e :: rest =>
      let e' := { e with predecessorId := assignedPredecessorId above e }
      e' :: assignPredecessors (above ++ [e']) rest

/-- Insert `a` into a sorted list after every element `b` with `le b a`,
so that elements arriving later sort after earlier ones with an equal
key. -/
def stableInsert (le : α → α → Bool) (a : α) : List α → List α
  | [] => [a]
  | b :: bs => if le b a then b :: stableInsert le a bs else a :: b :: bs

/-- Python's `sorted` (a stable sort by key) modelled as stable insertion
sort: elements are inserted left to right, each after any equal-key
element already placed. -/
def stableSort (le : α → α → Bool) (l : List α) : List α :=
  l.foldl (fun acc x => stableInsert le x acc) []

/-- Sort key for page rendering: `(item.y, item.sort_order)` ascending
(line 96). -/
def pdfSortLe (a b : DocElement) : Bool :=
  a.y < b.y ∨ (a.y = b.y ∧ a.sortOrder ≤ b.sortOrder)

/-- Sort key for row (spreadsheet) rendering: `(item.y, item.x)` ascending
(line 109). -/
def rowSortLe (a b : DocElement) : Bool :=
  a.y < b.y ∨ (a.y = b.y ∧ a.x ≤ b.x)

/-- `ReportBand.prepare` (lines 84-109): filter the band's elements (for
spreadsheet output, elements with the spreadsheet-hide flag are dropped
unless verifying), reset the multi-render flags on bands that cannot page
break, sort, and — for pdf output — assign predecessors. Element
`prepare` itself (data-context evaluation inside the element) is external
and leaves the fields modelled here unchanged. -/
def ReportBand.prepare (docElements : List DocElement) (allowPageBreak : Bool)
    (pdfDoc : Bool) (onlyVerify : Bool) : List DocElement :=
  let kept := docElements.filterMap (fun elem =>
    if pdfDoc ∨ ¬elem.spreadsheetHide ∨ onlyVerify then
      some (if allowPageBreak then elem
            else { elem with firstRenderElement := true, renderingComplete := false })
    else none)
  if pdfDoc then
    assignPredecessors [] (stableSort pdfSortLe kept)
  else
    stableSort rowSortLe kept

/-- Items appended to a band's `render_elements`: a fragment produced by
an element's `get_next_render_element`, or the `PageBreakElement` sentinel
appended when elements remain after a pass (line 177). -/
inductive RenderItem where
  | frag (elemId : Nat) (offsetY : Int)
  | sentinel
deriving DecidableEq, Repr

/-- Modelled from the spec: the element capability's
`get_next_render_element(offset_y, container_height, ctx, pdf_doc)`
(spec §6 `nextFragment`), driven by the element's response script. A call
consumes the next scripted response, marks the element as no longer on its
first render, records completion, and sets `render_bottom` to the offset
plus the height the fragment consumed. An exhausted script answers
(no fragment, not complete). -/
def DocElement.getNextRenderElement (e : DocElement) (offsetY : Int) :
    Option RenderItem × Bool × DocElement :=
  match e.script with
  | [] => (none, false, { e with firstRenderElement := false })
  | s :: rest =>
      ((if s.hasFrag then some (RenderItem.frag e.id offsetY) else none),
       s.complete,
       { e with script := rest,
                firstRenderElement := false,
                renderingComplete := s.complete,
                renderBottom := offsetY + s.usedHeight })

/-- Modelled from the spec: `finish_empty_element(offset_y)` for elements
that fail their visibility check (spec §6 `finishEmpty`): the element is
complete immediately at this offset. -/
def DocElement.finishEmptyElement (e : DocElement) (offsetY : Int) : DocElement :=
  { e with renderingComplete := true, renderBottom := offsetY }

/-- Arena lookup: elements are shared by identity in the source (spec §9:
an indexed arena with stable ids); this reads the current state of the
element with the given id. -/
def getElem (elems : List (Nat × DocElement)) (i : Nat) : DocElement :=
  (List.lookup i elems).getD
    { id := i, x := 0, y := 0, height := 0, sortOrder := 0, isPageBreak := false,
      spreadsheetHide := false, printed := false, firstRenderElement := false,
      renderingComplete := false, renderBottom := 0, predecessorId := none, script := [] }

/-- Arena update of the element with the given id. -/
def setElem (elems : List (Nat × DocElement)) (i : Nat) (e : DocElement) :
    List (Nat × DocElement) :=
  elems.map (fun kv => if kv.1 = i then (kv.1, e) else kv)

/-- The placement-offset computation of `ReportBand.create_render_elements`
(lines 138-149): relative to a predecessor's final rendered bottom, or —
with no predecessor — the raw top (band disallows breaks), the raw top
minus the page-break baseline (first render after an explicit break on a
breaking band), or zero. -/
def computeOffsetY (allowPageBreak explicitPageBreak : Bool) (pageY : Int)
    (e : DocElement) (pred : Option DocElement) : Int :=
  match pred with
  | some p => p.renderBottom + (e.y - p.bottom)
  | none =>
      if allowPageBreak then
        if e.firstRenderElement ∧ explicitPageBreak then e.y - pageY else 0
      else e.y

/-- Snapshot of the data entering the offset computation, recorded when an
element reaches lines 138-149 during a pass. `predData` holds the
predecessor's `(render_bottom, bottom, rendering_complete)` at that
moment. -/
structure OffsetEvent where
  elemId : Nat
  elemY : Int
  firstRender : Bool
  predData : Option (Int × Int × Bool)
  allowPageBreak : Bool
  explicitPageBreak : Bool
  pageY : Int
  offsetY : Int
deriving DecidableEq, Repr

/-- Observable events of one `create_render_elements` pass. -/
inductive Event where
  | offsetComputed (ev : OffsetEvent)
  | blocked (elemId : Nat)
  | pageBreakContent (elemId : Nat)
  | pageBreakSafety (elemId : Nat)
  | heightOverflow (elemId : Nat)
  | fragment (elemId : Nat) (complete : Bool)
  | emptyFinished (elemId : Nat)
deriving DecidableEq, Repr

/-- The snapshot recorded when an element reaches the offset computation:
its id, its top coordinate and first-render flag, its predecessor's
current `(render_bottom, bottom, rendering_complete)`, the band flags, and
the offset computed from exactly these data. -/
def mkOffsetEvent (eid : Nat) (allowPB explicitPB : Bool) (pageY : Int)
    (e : DocElement) (pred : Option DocElement) : OffsetEvent :=
  ⟨eid, e.y, e.firstRenderElement,
   pred.map (fun p => (p.renderBottom, p.bottom, p.renderingComplete)),
   allowPB, explicitPB, pageY, computeOffsetY allowPB explicitPB pageY e pred⟩

/-- The mutable state threaded through the loop of
`create_render_elements`: retained prefix (reversed), arena, pending
fragments, the per-pass `completed_elements` and `processed_elements`
collections, `page_y`, `set_explicit_page_break`, and the event log. -/
structure LoopSt where
  keptRev : List Nat
  elems : List (Nat × DocElement)
  renderElements : List RenderItem
  completed : List Nat
  processed : List Nat
  pageY : Int
  setExplicitPageBreak : Bool
  log : List Event
deriving DecidableEq, Repr

/-- Loop exit: final mutable state, the queue from the stop position on
(`sorted_elements[i:]` still pending), and whether the pass took the early
`return True` of the safety valve (line 136). -/
structure LoopOut where
  st : LoopSt
  queue : List Nat
  early : Bool
deriving DecidableEq, Repr

/-- The guard of lines 121-122: the element has a predecessor that is not
in this pass's `completed_elements` or is not `rendering_complete`. -/
def predecessorBlocks (elems : List (Nat × DocElement)) (completed : List Nat)
    (e : DocElement) : Bool :=
  match e.predecessorId with
  | some pid => decide (pid ∉ completed) || !(getElem elems pid).renderingComplete
  | none => false

/-- The `while not new_page and i < len(self.sorted_elements)` loop of
`ReportBand.create_render_elements` (lines 119-170), elements addressed by
id through the arena. Deleting the element at the cursor is dropping the
queue head; advancing the cursor is moving the head to `keptRev`. -/
def createGo (allowPB : Bool) (containerHeight : Int) (explicitPB : Bool) :
    List Nat → LoopSt → LoopOut
  | [], st => ⟨st, [], false⟩
  | eid :: rest, st =>
    let e := getElem st.elems eid
    if predecessorBlocks st.elems st.completed e then
      -- predecessor is not completed yet -> start new page
      ⟨{ st with log := st.log ++ [Event.blocked eid] }, eid :: rest, false⟩
    else if e.isPageBreak then
      if allowPB then
        ⟨{ st with
             pageY := e.y
             setExplicitPageBreak := true
             log := st.log ++ [Event.pageBreakContent eid] }, rest, false⟩
      else
        ⟨{ st with keptRev := [], log := st.log ++ [Event.pageBreakSafety eid] }, [], true⟩
    else
      let pred := e.predecessorId.bind (fun pid => List.lookup pid st.elems)
      let offset := computeOffsetY allowPB explicitPB st.pageY e pred
      let ev : OffsetEvent := mkOffsetEvent eid allowPB explicitPB st.pageY e pred
      let st := { st with log := st.log ++ [Event.offsetComputed ev] }
      if e.printed then
        if offset ≥ containerHeight then
          ⟨{ st with log := st.log ++ [Event.heightOverflow eid] }, eid :: rest, false⟩
        else
          let r := e.getNextRenderElement offset
          let st :=
            { st with
              elems := setElem st.elems eid r.2.2
              renderElements :=
                match r.1 with
                | some item => st.renderElements ++ [item]
                | none => st.renderElements
              processed :=
                match r.1 with
                | some _ => if r.2.1 then st.processed ++ [eid] else st.processed
                | none => st.processed
              log :=
                match r.1 with
                | some _ => st.log ++ [Event.fragment eid r.2.1]
                | none => st.log }
          if r.2.1 then
            createGo allowPB containerHeight explicitPB rest
              { st with completed := st.completed ++ [eid] }
          else
            createGo allowPB containerHeight explicitPB rest
              { st with keptRev := eid :: st.keptRev }
      else
        createGo allowPB containerHeight explicitPB rest
          { st with
            elems := setElem st.elems eid (e.finishEmptyElement offset)
            completed := st.completed ++ [eid]
            processed := st.processed ++ [eid]
            log := st.log ++ [Event.emptyFinished eid] }

/-- State of a band between pagination passes: the band flags, the element
arena, `sorted_elements` (as ids) and `render_elements`. -/
structure BandPassState where
  allowPageBreak : Bool
  explicitPageBreak : Bool
  pageY : Int
  elems : List (Nat × DocElement)
  sortedIds : List Nat
  renderElements : List RenderItem
deriving DecidableEq, Repr

/-- Result of one `create_render_elements` call: the band state after the
pass, the returned boolean (`len(self.sorted_elements) == 0`, or the early
`True` of the safety valve), and the event log of the pass. -/
structure PassResult where
  state : BandPassState
  done : Bool
  log : List Event
deriving DecidableEq, Repr

/-- `ReportBand.create_render_elements(container_height, ctx, pdf_doc)`
(lines 112-183): run the loop, then — unless the safety valve returned
early — update `explicit_page_break` and, if elements remain, append the
page-break sentinel and clear the predecessor links of the dependents of
every element completed with a fragment this pass (lines 172-183). -/
def ReportBand.createRenderElements (containerHeight : Int) (s : BandPassState) : PassResult :=
  let out := createGo s.allowPageBreak containerHeight s.explicitPageBreak s.sortedIds
    { keptRev := [], elems := s.elems, renderElements := s.renderElements,
      completed := [], processed := [], pageY := s.pageY,
      setExplicitPageBreak := false, log := [] }
  if out.early then
    { state :=
        { s with
          sortedIds := []
          elems := out.st.elems
          renderElements := out.st.renderElements
          pageY := out.st.pageY }
      done := true
      log := out.st.log }
  else
    let finalSorted := out.st.keptRev.reverse ++ out.queue
    let explicitPB := if s.allowPageBreak then out.st.setExplicitPageBreak else true
    if finalSorted.isEmpty then
      { state :=
          { s with
            sortedIds := []
            elems := out.st.elems
            renderElements := out.st.renderElements
            pageY := out.st.pageY
            explicitPageBreak := explicitPB }
        done := true
        log := out.st.log }
    else
      let elems := out.st.elems.map (fun kv =>
        match kv.2.predecessorId with
        | some pid =>
            if pid ∈ out.st.processed then (kv.1, { kv.2 with predecessorId := none }) else kv
        | none => kv)
      { state :=
          { s with
            sortedIds := finalSorted
            elems := elems
            renderElements := out.st.renderElements ++ [RenderItem.sentinel]
            pageY := out.st.pageY
            explicitPageBreak := explicitPB }
        done := false
        log := out.st.log }

/-- Build the pagination state of a freshly prepared band: `prepare` with a
pdf target leaves `render_elements = []` (line 107); `explicit_page_break`
is `True` and `page_y = 0` from the `ReportBand` constructor
(lines 64-65). -/
def ReportBand.initPassState (docElements : List DocElement) (allowPageBreak : Bool)
    (onlyVerify : Bool) : BandPassState :=
  let s := ReportBand.prepare docElements allowPageBreak true onlyVerify
  { allowPageBreak := allowPageBreak
    explicitPageBreak := true
    pageY := 0
    elems := s.map (fun e => (e.id, e))
    sortedIds := s.map (fun e => e.id)
    renderElements := [] }

/-- The height available for the content band on a given page
(`DocumentPDFRenderer.render`, lines 261-268): page height minus vertical
margins, minus header/footer sizes according to their display policy for
this page index. -/
def availableContentHeight (dp : DocumentProperties) (pageCount : Nat) : Int :=
  let h := dp.pageHeight - dp.marginTop - dp.marginBottom
  let h :=
    if dp.headerDisplay = BandDisplay.always ∨
        (dp.headerDisplay = BandDisplay.not_on_first_page ∧ pageCount ≠ 1) then
      h - dp.headerSize
    else h
  if dp.footerDisplay = BandDisplay.always ∨
      (dp.footerDisplay = BandDisplay.not_on_first_page ∧ pageCount ≠ 1) then
    h - dp.footerSize
  else h

/-- The sizing loop of `DocumentPDFRenderer.render` (lines 259-274):
starting from `page_count = 1`, call the pagination step; stop when it
reports complete, otherwise increment the page count and raise
`RuntimeError` once it reaches 10000. `step` takes the current page count
(the available height depends on it) and the band state. -/
def sizingLoop {σ : Type} (step : Nat → σ → σ × Bool) (s : σ) (pageCount : Nat) :
    Except String (σ × Nat) :=
  let r := step pageCount s
  if r.2 then Except.ok (r.1, pageCount)
  else if pageCount + 1 ≥ 10000 then
    Except.error "Too many pages (probably an endless loop)"
  else sizingLoop step r.1 (pageCount + 1)
termination_by 10000 - pageCount
decreasing_by omega

/-- The full sizing phase: drive the content band's
`create_render_elements` against the per-page available height until it
reports done, returning the band state and the page count, or the fatal
cap error. -/
def DocumentPDFRenderer.sizingPhase (dp : DocumentProperties) (content : BandPassState) :
    Except String (BandPassState × Nat) :=
  sizingLoop
    (fun pageCount s =>
      let r := ReportBand.createRenderElements (availableContentHeight dp pageCount) s
      (r.state, r.done))
    content 1

/-- The consumption step of `ReportBand.render_pdf` (lines 185-194): draw
and drop fragments up to and including the first page-break sentinel (the
sentinel is counted before the loop breaks, so it is dropped too); with no
sentinel everything is consumed. Drawing itself goes to the external pdf
sink. -/
def RenderItem.isSentinel : RenderItem → Bool
  | RenderItem.sentinel => true
  | RenderItem.frag _ _ => false

def renderPdfConsume (l : List RenderItem) : List RenderItem :=
  (l.dropWhile (fun it => !it.isSentinel)).drop 1

/-- The emission loop of `DocumentPDFRenderer.render` (lines 280-306) as
far as page accounting is concerned: while the content band is not
finished or no page has been started yet, start a page (incrementing the
page number) and drain one page of the content band. Header/footer
re-preparation and all drawing are external side effects with no influence
on the loop condition. Returns the final page number. -/
def emissionLoop (renderElements : List RenderItem) (pageNumber : Nat) : Nat :=
  if renderElements = [] ∧ pageNumber ≠ 0 then pageNumber
  else emissionLoop (renderPdfConsume renderElements) (pageNumber + 1)
termination_by renderElements.length + (if pageNumber = 0 then 1 else 0)
decreasing_by
  simp only [renderPdfConsume, List.length_drop, Nat.succ_ne_zero, if_false,
    Nat.add_one_ne_zero, ite_false]
  by_cases hre : renderElements = []
  · subst hre
    simp_all
  · have h1 : (List.dropWhile (fun it : RenderItem => !it.isSentinel) renderElements).length ≤
        renderElements.length :=
      (List.dropWhile_sublist _).length_le
    have h3 : 0 < renderElements.length := List.length_pos.mpr hre
    split <;> omega

/-- The placement-offset formula as the specification states it, expressed
on a recorded snapshot: predecessor's final rendered bottom plus the
original vertical gap; otherwise raw top (no breaks allowed), raw top
minus the page-break baseline (first render after an explicit break), or
zero. -/
def offsetFormula (oe : OffsetEvent) : Int :=
  match oe.predData with
  | some (rb, b, _) => rb + (oe.elemY - b)
  | none =>
      if oe.allowPageBreak then
        if oe.firstRender ∧ oe.explicitPageBreak then oe.elemY - oe.pageY else 0
      else oe.elemY

/-- What each kind of logged event guarantees about the pass it came from:
offset snapshots satisfy the offset formula with a completed predecessor;
a blocked element is at the head of the pending queue and its event ends
the log; the safety valve takes the early return with everything
cleared. -/
def GoodEvent (ev : Event) (out : LoopOut) : Prop :=
  match ev with
  | Event.offsetComputed oe =>
      oe.offsetY = offsetFormula oe ∧ (∀ rb b c, oe.predData = some (rb, b, c) → c = true)
  | Event.blocked eid =>
      out.queue.head? = some eid ∧ out.early = false ∧
      ∃ pre, out.st.log = pre ++ [Event.blocked eid]
  | Event.pageBreakSafety _ => out.early = true ∧ out.queue = [] ∧ out.st.keptRev = []
  | _ => True

/-- The width plausibility bounds of lines 381 and 386, as a test. -/
def widthOutOfBounds (unit : PageUnit) (w : Int) : Bool :=
  match unit with
  | PageUnit.mm => w < 100 || w ≥ 100000
  | PageUnit.inch => w < 1 || w ≥ 1000

/-- The height plausibility bounds of lines 383 and 388, as a test. -/
def heightOutOfBounds (unit : PageUnit) (h : Int) : Bool :=
  match unit with
  | PageUnit.mm => h < 100 || h ≥ 100000
  | PageUnit.inch => h < 1 || h ≥ 1000

/-! Concrete inputs used by witnesses and counterexamples. -/

/-- A fresh element with the given id, position, height, page-break flag
and response script. -/
def mkElem (i : Nat) (y h : Int) (pb : Bool) (scr : List FragSpec) : DocElement :=
  { id := i, x := 0, y := y, height := h, sortOrder := 0, isPageBreak := pb,
    spreadsheetHide := false, printed := true, firstRenderElement := true,
    renderingComplete := false, renderBottom := 0, predecessorId := none, script := scr }

/-- Content element at top 0, bottom 5. -/
def exA : DocElement := mkElem 0 0 5 false []

/-- Page-break marker at y = 8 (bottom 8). -/
def exPB : DocElement := mkElem 1 8 0 true []

/-- Content element at top 10: the page-break marker has the greatest
bottom edge not exceeding 10, `exA` the greatest among non-markers. -/
def exE : DocElement := mkElem 2 10 5 false []

/-- Element that renders one incomplete fragment (splits across pages). -/
def c7A : DocElement := mkElem 0 0 60 false [⟨true, false, 40⟩]

/-- Element directly below `c7A`; `prepare` links `c7A` as its
predecessor. -/
def c7B : DocElement := mkElem 1 60 60 false [⟨true, true, 60⟩]

/-- A prepared content band containing `c7A` and `c7B`. -/
def c7S : BandPassState := ReportBand.initPassState [c7A, c7B] true false

/-- Header-band element completing in one fragment. -/
def c6e0 : DocElement := mkElem 0 0 10 false [⟨true, true, 10⟩]

/-- Page-break marker inside the header band. -/
def c6pb : DocElement := mkElem 1 5 0 true []

/-- Header-band element that does not fit into the band height used by the
witness. -/
def c6e2 : DocElement := mkElem 2 30 40 false [⟨true, true, 40⟩]

/-- A prepared header band (no page breaks allowed) whose elements need
70 units of height. -/
def c6S : BandPassState := ReportBand.initPassState [c6e0, c6pb, c6e2] false false

/-- The offset snapshot recorded for `c7A` on the first pass over `c7S`. -/
def c4ev : OffsetEvent := ⟨0, 0, true, none, true, true, 0, 0⟩

/-- Document data with an unsupported locale code and otherwise valid
fields (a4 portrait). -/
def c3data : DocData :=
  { pageFormat := PageFormat.a4, orientation := Orientation.portrait,
    pageWidth := 0, pageHeight := 0, unit := PageUnit.mm, contentHeight := 0,
    marginLeft := 10, marginTop := 10, marginRight := 10, marginBottom := 10,
    patternLocale := "xx", patternCurrencySymbol := "$", header := false,
    headerDisplay := BandDisplay.never, headerSize := 0, footer := false,
    footerDisplay := BandDisplay.never, footerSize := 0 }

/-- Document data with an unsupported locale code on an a5 landscape
page. -/
def c3dataW : DocData :=
  { c3data with pageFormat := PageFormat.a5, orientation := Orientation.landscape,
                patternLocale := "zz" }

/-- Custom-format document data whose width and height are both below the
mm lower bound. -/
def c10data : DocData :=
  { c3data with pageFormat := PageFormat.user_defined, pageWidth := 50, pageHeight := 50,
                unit := PageUnit.mm, patternLocale := "en" }

/-- An element carrying the spreadsheet-hide flag. -/
def hiddenElem : DocElement :=
  { mkElem 5 0 10 false [] with spreadsheetHide := true }

/-! Theorems. -/

theorem mem_stableInsert (le : α → α → Bool) (x a : α) (l : List α) :
    a ∈ stableInsert le x l ↔ a = x ∨ a ∈ l := by
  induction l with
  | nil => simp [stableInsert]
  | cons b bs ih =>
      by_cases hc : le b x = true
      · simp only [stableInsert, if_pos hc, List.mem_cons, ih]
        tauto
      · simp only [stableInsert, if_neg hc, List.mem_cons]

theorem mem_stableSort (le : α → α → Bool) (l : List α) (a : α) :
    a ∈ stableSort le l ↔ a ∈ l := by
  have h : ∀ (l : List α) (acc : List α),
      a ∈ l.foldl (fun acc x => stableInsert le x acc) acc ↔ a ∈ acc ∨ a ∈ l := by
    intro l
    induction l with
    | nil => simp
    | cons b bs ih =>
        intro acc
        rw [List.foldl_cons, ih, mem_stableInsert]
        simp
        tauto
  rw [stableSort, h]
  simp

/-- C2 counterexample: with header display policy `never`, the row
renderer emits no footer rows at all (and the footer emitter is never
applied to the row cursor), contradicting the claim that footer rows are
always emitted after the content rows. -/
theorem C2_counterexample :
    BandType.footer ∉ (xlsxRender BandDisplay.never (fun r => r + 1) (fun r => r + 2)
      (fun r => r + 100)).2 ∧
    (xlsxRender BandDisplay.never (fun r => r + 1) (fun r => r + 2) (fun r => r + 100)).1 = 2 := by
  constructor
  · decide
  · rfl

/-- C2 (amended): the row renderer performs a single pass; when the header
display policy is not `never` it emits header rows, then content rows,
then footer rows, threading the row cursor through all three; when the
header display policy is `never` it emits only the content rows (the
footer band is guarded by the header display policy in the source). -/
theorem C2_xlsx_single_pass (d : BandDisplay) (eh ec ef : Nat → Nat) :
    xlsxRender d eh ec ef =
      if d = BandDisplay.never then (ec 0, [BandType.content])
      else (ef (ec (eh 0)), [BandType.header, BandType.content, BandType.footer]) := by
  cases d <;> simp [xlsxRender]

/-- C3 counterexample: constructing document geometry from otherwise valid
data with unsupported locale "xx" collects no validation error and aborts
with `RuntimeError('invalid pattern_locale')`. -/
theorem C3_counterexample :
    documentPropertiesInit c3data = ([], Except.error "invalid pattern_locale") := by
  rfl

/-- C3 (amended): a locale code outside the supported set makes
`DocumentProperties.__init__` raise a `RuntimeError` (aborting
construction); no field-scoped validation error is collected for the
locale. -/
theorem C3_locale_aborts (data : DocData)
    (h : data.patternLocale ∉ ["de", "en", "es", "fr", "it"]) :
    (documentPropertiesInit data).2 = Except.error "invalid pattern_locale" := by
  simp only [documentPropertiesInit]
  rw [if_neg h]

/-- C3 witness: the amended theorem applied to concrete a5 landscape data
with locale "zz". -/
theorem C3_witness :
    (documentPropertiesInit c3dataW).2 = Except.error "invalid pattern_locale" :=
  C3_locale_aborts c3dataW (by decide)

/-- C10: when a custom page format has both width and height outside the
plausible bounds for its unit, exactly one invalid-page-size error record
is collected (the height check sits in an `elif`, so it runs only when the
width is in bounds). -/
theorem C10_single_page_size_error (data : DocData)
    (hfmt : data.pageFormat = PageFormat.user_defined)
    (hw : widthOutOfBounds data.unit data.pageWidth = true)
    (hh : heightOutOfBounds data.unit data.pageHeight = true) :
    (documentPropertiesInit data).1 =
      [⟨"errorMsgInvalidPageSize", "0_document_properties", "page"⟩] := by
  have herr : (documentPropertiesInit data).1 =
      pageSizeErrors data.unit data.pageWidth data.pageHeight := by
    simp only [documentPropertiesInit, resolvePageSize, hfmt]
    split <;> rfl
  rw [herr]
  cases hu : data.unit <;>
    rw [hu] at hw <;>
    simp only [widthOutOfBounds, Bool.or_eq_true, decide_eq_true_eq] at hw <;>
    simp only [pageSizeErrors] <;>
    rw [if_pos hw]

/-- C10 witness: a 50mm × 50mm custom page yields exactly one
invalid-page-size error. -/
theorem C10_witness :
    (documentPropertiesInit c10data).1 =
      [⟨"errorMsgInvalidPageSize", "0_document_properties", "page"⟩] :=
  C10_single_page_size_error c10data (by decide) (by decide) (by decide)

/-- The element produced by the filter step of `prepare` keeps its id and
its spreadsheet-hide flag (lines 87-93 reset only the render flags). -/
theorem prepare_keep_fields (allowPB : Bool) (elem : DocElement) :
    (if allowPB then elem
     else { elem with firstRenderElement := true, renderingComplete := false }).id = elem.id ∧
    (if allowPB then elem
     else { elem with firstRenderElement := true,
                      renderingComplete := false }).spreadsheetHide = elem.spreadsheetHide := by
  cases allowPB <;> simp

/-- C9: preparing a band for row (spreadsheet) output drops exactly the
elements whose spreadsheet-hide flag is set — unless preparing in
verify-only mode, where they are kept. -/
theorem C9_spreadsheet_hide (docElements : List DocElement) (allowPB onlyVerify : Bool) :
    (∀ e ∈ ReportBand.prepare docElements allowPB false onlyVerify,
       e.spreadsheetHide = false ∨ onlyVerify = true) ∧
    (∀ e ∈ docElements, (e.spreadsheetHide = false ∨ onlyVerify = true) →
       e.id ∈ (ReportBand.prepare docElements allowPB false onlyVerify).map (fun x => x.id)) := by
  constructor
  · intro e he
    simp only [ReportBand.prepare, Bool.false_eq_true, if_false] at he
    rw [mem_stableSort, List.mem_filterMap] at he
    obtain ⟨a, _, hfa⟩ := he
    split at hfa
    · rename_i hcond
      obtain ⟨rfl⟩ := Option.some.inj hfa
      rw [(prepare_keep_fields allowPB a).2]
      rcases hcond with h | h | h
      · exact absurd h (by simp)
      · exact Or.inl (by simpa using h)
      · exact Or.inr h
    · exact absurd hfa (by simp)
  · intro e he hcond
    simp only [ReportBand.prepare, Bool.false_eq_true, if_false]
    rw [List.mem_map]
    refine ⟨if allowPB then e
            else { e with firstRenderElement := true, renderingComplete := false },
            ?_, (prepare_keep_fields allowPB e).1⟩
    rw [mem_stableSort, List.mem_filterMap]
    refine ⟨e, he, ?_⟩
    rw [if_pos]
    rcases hcond with h | h
    · exact Or.inr (Or.inl (by simp [h]))
    · exact Or.inr (Or.inr h)

/-- C9 witness: a spreadsheet-hidden element survives a verify-only row
preparation. -/
theorem C9_witness :
    hiddenElem.id ∈ (ReportBand.prepare [hiddenElem] false false true).map (fun x => x.id) :=
  (C9_spreadsheet_hide [hiddenElem] false true).2 hiddenElem (by decide) (Or.inr rfl)

/-- If the predecessor scan exhausts its input with result `none`, the
accumulator was `none` and no scanned element qualified. -/
theorem predecessorScanAux_none (e : DocElement) :
    ∀ (l : List DocElement) (acc : Option DocElement),
      predecessorScanAux e l acc = none → acc = none ∧ ∀ q ∈ l, ¬(q.bottom ≤ e.y) := by
  intro l
  induction l with
  | nil =>
      intro acc h
      exact ⟨h, by simp⟩
  | cons e2 rest ih =>
      intro acc h
      rw [predecessorScanAux] at h
      split at h
      · exact absurd (ih _ h).1 (by simp)
      · rename_i hc
        obtain ⟨hacc, hrest⟩ := ih _ h
        subst hacc
        refine ⟨rfl, ?_⟩
        intro q hq
        rcases List.mem_cons.mp hq with rfl | hq2
        · intro hqual
          exact hc ⟨hqual, by simp⟩
        · exact hrest q hq2

/-- If the predecessor scan returns `some w`, then `w` is a qualifying
scanned element (or the accumulator), dominates every qualifying scanned
element, and dominates the accumulator. -/
theorem predecessorScanAux_some (e : DocElement) :
    ∀ (l : List DocElement) (acc : Option DocElement) (w : DocElement),
      predecessorScanAux e l acc = some w →
      ((w ∈ l ∧ w.bottom ≤ e.y) ∨ acc = some w) ∧
      (∀ q ∈ l, q.bottom ≤ e.y → q.bottom ≤ w.bottom) ∧
      (∀ p, acc = some p → p.bottom ≤ w.bottom) := by
  intro l
  induction l with
  | nil =>
      intro acc w h
      have hacc : acc = some w := h
      refine ⟨Or.inr hacc, by simp, ?_⟩
      intro p hp
      rw [hp] at hacc
      obtain ⟨rfl⟩ := Option.some.inj hacc
      exact le_refl _
  | cons e2 rest ih =>
      intro acc w h
      rw [predecessorScanAux] at h
      split at h
      · rename_i hc
        obtain ⟨hin, hmax, haccle⟩ := ih _ _ h
        have he2w : e2.bottom ≤ w.bottom := haccle e2 rfl
        refine ⟨?_, ?_, ?_⟩
        · rcases hin with ⟨hw, hq⟩ | hw
          · exact Or.inl ⟨List.mem_cons_of_mem _ hw, hq⟩
          · obtain ⟨rfl⟩ := Option.some.inj hw
            exact Or.inl ⟨List.mem_cons_self _ _, hc.1⟩
        · intro q hq hqual
          rcases List.mem_cons.mp hq with rfl | hq2
          · exact he2w
          · exact hmax q hq2 hqual
        · intro p hp
          exact le_trans (le_of_lt (hc.2 p hp)) he2w
      · rename_i hc
        obtain ⟨hin, hmax, haccle⟩ := ih _ _ h
        refine ⟨?_, ?_, haccle⟩
        · rcases hin with ⟨hw, hq⟩ | hw
          · exact Or.inl ⟨List.mem_cons_of_mem _ hw, hq⟩
          · exact Or.inr hw
        · intro q hq hqual
          rcases List.mem_cons.mp hq with rfl | hq2
          · by_cases hex : ∀ p, acc = some p → p.bottom < q.bottom
            · exact absurd ⟨hqual, hex⟩ hc
            · push_neg at hex
              obtain ⟨p, hp, hple⟩ := hex
              exact le_trans hple (haccle p hp)
          · exact hmax q hq2 hqual

/-- C1 counterexample: in a prepared band where a page-break marker
(`exPB`, bottom 8) has the greatest bottom edge not exceeding the top of
`exE` (top 10) while a content element (`exA`, bottom 5) also qualifies,
`prepare` assigns `exE` no predecessor at all, whereas the claim's
skip-during-scan reading predicts `exA` (id 0) as predecessor. -/
theorem C1_counterexample :
    ReportBand.prepare [exA, exPB, exE] true true false =
      [exA, { exPB with predecessorId := some 0 }, exE] ∧
    exE.predecessorId = none ∧
    skipPageBreakPredecessorId [exA, exPB] exE = some 0 ∧
    exA.isPageBreak = false ∧ exPB.isPageBreak = true ∧
    exA.bottom ≤ exE.y ∧ exPB.bottom ≤ exE.y := by
  decide

/-- C1 (amended): for each element the scan selects, among all elements
above it (page-break markers included), the one with the greatest bottom
edge not exceeding the element's top edge; if that winner is a page-break
marker the element is given no new predecessor — the scan does not fall
back to a non-page-break candidate — and if nothing qualifies the
element's link is left unchanged. -/
theorem C1_predecessor_scan (above : List DocElement) (e : DocElement) :
    (∀ w, predecessorScan above e = some w →
       w ∈ above ∧ w.bottom ≤ e.y ∧
       (∀ q ∈ above, q.bottom ≤ e.y → q.bottom ≤ w.bottom) ∧
       assignedPredecessorId above e =
         (if w.isPageBreak then e.predecessorId else some w.id)) ∧
    (predecessorScan above e = none →
       (∀ q ∈ above, ¬(q.bottom ≤ e.y)) ∧
       assignedPredecessorId above e = e.predecessorId) := by
  constructor
  · intro w hw
    have hs := predecessorScanAux_some e above.reverse none w hw
    obtain ⟨hin, hmax, -⟩ := hs
    rcases hin with ⟨hmem, hqual⟩ | habs
    · refine ⟨List.mem_reverse.mp hmem, hqual, ?_, ?_⟩
      · intro q hq hqq
        exact hmax q (List.mem_reverse.mpr hq) hqq
      · rw [assignedPredecessorId, hw]
    · exact absurd habs (by simp)
  · intro hn
    have hs := predecessorScanAux_none e above.reverse none hn
    refine ⟨?_, ?_⟩
    · intro q hq
      exact hs.2 q (List.mem_reverse.mpr hq)
    · rw [assignedPredecessorId, hn]

/-- C1 witness: the amended theorem applied at the concrete band of the
counterexample — the winner `exPB` is a page-break marker, so `exE` keeps
its (empty) predecessor link. -/
theorem C1_witness :
    assignedPredecessorId [exA, exPB] exE =
      (if exPB.isPageBreak then exE.predecessorId else some exPB.id) :=
  ((C1_predecessor_scan [exA, exPB] exE).1 exPB (by decide)).2.2.2

/-- When the predecessor guard does not block, the recorded offset
snapshot satisfies the offset formula, and any recorded predecessor is
`rendering_complete`. -/
theorem mkOffsetEvent_good (eid : Nat) (a x : Bool) (pageY : Int)
    (elems : List (Nat × DocElement)) (completed : List Nat) (e : DocElement)
    (hb : predecessorBlocks elems completed e = false) :
    (mkOffsetEvent eid a x pageY e
        (e.predecessorId.bind (fun pid => List.lookup pid elems))).offsetY =
      offsetFormula (mkOffsetEvent eid a x pageY e
        (e.predecessorId.bind (fun pid => List.lookup pid elems))) ∧
    ∀ rb b cc,
      (mkOffsetEvent eid a x pageY e
          (e.predecessorId.bind (fun pid => List.lookup pid elems))).predData =
        some (rb, b, cc) → cc = true := by
  rcases hp : e.predecessorId with _ | pid
  · constructor
    · simp [mkOffsetEvent, offsetFormula, computeOffsetY, hp]
    · simp [mkOffsetEvent, hp]
  · rcases hl : List.lookup pid elems with _ | p
    · constructor
      · simp [mkOffsetEvent, offsetFormula, computeOffsetY, hp, hl]
      · simp [mkOffsetEvent, hp, hl]
    · have hrc : p.renderingComplete = true := by
        rw [predecessorBlocks, hp] at hb
        simp only [Bool.or_eq_false_iff, decide_eq_false_iff_not, not_not,
          Bool.not_eq_false] at hb
        have hg : getElem elems pid = p := by
          rw [getElem, hl]
          rfl
        rw [hg] at hb
        simpa using hb.2
      constructor
      · simp [mkOffsetEvent, offsetFormula, computeOffsetY, hp, hl]
      · intro rb b cc hsome
        simp only [mkOffsetEvent, hp, hl, Option.bind, Option.map,
          Option.some.injEq, Prod.mk.injEq] at hsome
        obtain ⟨-, -, h3⟩ := hsome
        rw [← h3, hrc]

/-- Every event a pass appends to the log carries its guarantee: offset
snapshots satisfy the offset formula with a completed predecessor, a
blocked event ends the pass with the blocked element at the head of the
pending queue, and a safety-valve event takes the early return with the
element lists cleared. -/
theorem createGo_sound (a : Bool) (c : Int) (x : Bool) (q : List Nat) :
    ∀ (st : LoopSt) (ev : Event), ev ∈ (createGo a c x q st).st.log →
      ev ∈ st.log ∨ GoodEvent ev (createGo a c x q st) := by
  induction q with
  | nil =>
      intro st ev h
      exact Or.inl h
  | cons eid rest ih =>
      intro st ev h
      by_cases hb : predecessorBlocks st.elems st.completed (getElem st.elems eid) = true
      · rw [createGo, if_pos hb] at h ⊢
        rcases List.mem_append.mp h with h1 | h2
        · exact Or.inl h1
        · right
          obtain rfl := List.mem_singleton.mp h2
          exact ⟨rfl, rfl, st.log, rfl⟩
      · by_cases hpb : (getElem st.elems eid).isPageBreak = true
        · by_cases ha : a = true
          · rw [createGo, if_neg hb, if_pos hpb, if_pos ha] at h ⊢
            rcases List.mem_append.mp h with h1 | h2
            · exact Or.inl h1
            · right
              obtain rfl := List.mem_singleton.mp h2
              exact trivial
          · rw [createGo, if_neg hb, if_pos hpb, if_neg ha] at h ⊢
            rcases List.mem_append.mp h with h1 | h2
            · exact Or.inl h1
            · right
              obtain rfl := List.mem_singleton.mp h2
              exact ⟨rfl, rfl, rfl⟩
        · have hgood := mkOffsetEvent_good eid a x st.pageY st.elems st.completed
            (getElem st.elems eid) (by simpa using hb)
          by_cases hpr : (getElem st.elems eid).printed = true
          · by_cases hov : (computeOffsetY a x st.pageY (getElem st.elems eid)
          ((getElem st.elems eid).predecessorId.bind (fun pid => List.lookup pid st.elems))) ≥ c
            · rw [createGo, if_neg hb, if_neg hpb, if_pos hpr, if_pos hov] at h ⊢
              rcases List.mem_append.mp h with h1 | h2
              · rcases List.mem_append.mp h1 with h3 | h4
                · exact Or.inl h3
                · right
                  obtain rfl := List.mem_singleton.mp h4
                  exact hgood
              · right
                obtain rfl := List.mem_singleton.mp h2
                exact trivial
            · by_cases hcm : ((getElem st.elems eid).getNextRenderElement (computeOffsetY a x st.pageY (getElem st.elems eid)
          ((getElem st.elems eid).predecessorId.bind (fun pid => List.lookup pid st.elems)))).2.1 = true
              · rw [createGo, if_neg hb, if_neg hpb, if_pos hpr, if_neg hov, if_pos hcm] at h ⊢
                rcases ih _ ev h with h1 | h2
                · rcases hfr : ((getElem st.elems eid).getNextRenderElement (computeOffsetY a x st.pageY (getElem st.elems eid)
          ((getElem st.elems eid).predecessorId.bind (fun pid => List.lookup pid st.elems)))).1
                      with _ | item
                  · simp only [hfr] at h1
                    rcases List.mem_append.mp h1 with h3 | h4
                    · exact Or.inl h3
                    · right
                      obtain rfl := List.mem_singleton.mp h4
                      exact hgood
                  · simp only [hfr] at h1
                    rcases List.mem_append.mp h1 with h3 | h4
                    · rcases List.mem_append.mp h3 with h5 | h6
                      · exact Or.inl h5
                      · right
                        obtain rfl := List.mem_singleton.mp h6
                        exact hgood
                    · right
                      obtain rfl := List.mem_singleton.mp h4
                      exact trivial
                · exact Or.inr h2
              · rw [createGo, if_neg hb, if_neg hpb, if_pos hpr, if_neg hov, if_neg hcm] at h ⊢
                rcases ih _ ev h with h1 | h2
                · rcases hfr : ((getElem st.elems eid).getNextRenderElement (computeOffsetY a x st.pageY (getElem st.elems eid)
          ((getElem st.elems eid).predecessorId.bind (fun pid => List.lookup pid st.elems)))).1
                      with _ | item
                  · simp only [hfr] at h1
                    rcases List.mem_append.mp h1 with h3 | h4
                    · exact Or.inl h3
                    · right
                      obtain rfl := List.mem_singleton.mp h4
                      exact hgood
                  · simp only [hfr] at h1
                    rcases List.mem_append.mp h1 with h3 | h4
                    · rcases List.mem_append.mp h3 with h5 | h6
                      · exact Or.inl h5
                      · right
                        obtain rfl := List.mem_singleton.mp h6
                        exact hgood
                    · right
                      obtain rfl := List.mem_singleton.mp h4
                      exact trivial
                · exact Or.inr h2
          · rw [createGo, if_neg hb, if_neg hpb, if_neg hpr] at h ⊢
            rcases ih _ ev h with h1 | h2
            · rcases List.mem_append.mp h1 with h3 | h4
              · rcases List.mem_append.mp h3 with h5 | h6
                · exact Or.inl h5
                · right
                  obtain rfl := List.mem_singleton.mp h6
                  exact hgood
              · right
                obtain rfl := List.mem_singleton.mp h4
                exact trivial
            · exact Or.inr h2

/-- The log of a full `create_render_elements` call is the loop's log. -/
theorem createRenderElements_log (c : Int) (s : BandPassState) :
    (ReportBand.createRenderElements c s).log =
      (createGo s.allowPageBreak c s.explicitPageBreak s.sortedIds
        ⟨[], s.elems, s.renderElements, [], [], s.pageY, false, []⟩).st.log := by
  simp only [ReportBand.createRenderElements]
  split
  · rfl
  · split
    · rfl
    · rfl

/-- Every event in the log of a full `create_render_elements` call carries
its guarantee. -/
theorem createRenderElements_sound (c : Int) (s : BandPassState) :
    ∀ ev ∈ (ReportBand.createRenderElements c s).log,
      GoodEvent ev (createGo s.allowPageBreak c s.explicitPageBreak s.sortedIds
        ⟨[], s.elems, s.renderElements, [], [], s.pageY, false, []⟩) := by
  intro ev h
  rw [createRenderElements_log] at h
  rcases createGo_sound s.allowPageBreak c s.explicitPageBreak s.sortedIds
      ⟨[], s.elems, s.renderElements, [], [], s.pageY, false, []⟩ ev h with h1 | h2
  · exact absurd h1 (List.not_mem_nil ev)
  · exact h2

/-- C4: during a pagination pass, every placement offset matches the
specified formula — predecessor's final rendered bottom plus the original
vertical gap when a (necessarily completed) predecessor exists, the raw
top coordinate on a band without page breaks, and on a breaking band the
raw top minus the page-break baseline on the element's first render after
an explicit break, otherwise zero. -/
theorem C4_placement_offset (containerHeight : Int) (s : BandPassState) :
    ∀ oe, Event.offsetComputed oe ∈ (ReportBand.createRenderElements containerHeight s).log →
      oe.offsetY = offsetFormula oe ∧
      ∀ rb b cc, oe.predData = some (rb, b, cc) → cc = true := by
  intro oe h
  exact createRenderElements_sound containerHeight s _ h

/-- C4 witness: the offset snapshot recorded for `c7A` on the first pass
over `c7S` satisfies the formula. -/
theorem C4_witness :
    c4ev.offsetY = offsetFormula c4ev ∧
    ∀ rb b cc, c4ev.predData = some (rb, b, cc) → cc = true :=
  C4_placement_offset 100 c7S c4ev (by decide)

/-- C6: when a pagination pass of a band that does not allow page breaks
reaches a page-break marker, the pass reports the band fully done and all
remaining elements are cleared — even when the band height is insufficient
for its elements, the band is finished after this single call. -/
theorem C6_safety_valve (containerHeight : Int) (s : BandPassState) (eid : Nat)
    (hband : s.allowPageBreak = false)
    (h : Event.pageBreakSafety eid ∈ (ReportBand.createRenderElements containerHeight s).log) :
    (ReportBand.createRenderElements containerHeight s).done = true ∧
    (ReportBand.createRenderElements containerHeight s).state.sortedIds = [] := by
  have hg := createRenderElements_sound containerHeight s _ h
  have hearly : (createGo s.allowPageBreak containerHeight s.explicitPageBreak s.sortedIds
      ⟨[], s.elems, s.renderElements, [], [], s.pageY, false, []⟩).early = true := hg.1
  simp only [ReportBand.createRenderElements]
  rw [if_pos hearly]
  exact ⟨rfl, rfl⟩

/-- C6 witness: a header band whose 70 units of content do not fit into 20
units of height—its page-break marker clears the band and the single call
reports done. -/
theorem C6_witness :
    (ReportBand.createRenderElements 20 c6S).done = true ∧
    (ReportBand.createRenderElements 20 c6S).state.sortedIds = [] :=
  C6_safety_valve 20 c6S 1 (by decide) (by decide)

/-- C7 counterexample: element 0 renders an incomplete fragment and stays
queued; element 1 is blocked by its incomplete predecessor — but the first
element re-evaluated on the next page is element 0 (the unfinished
predecessor), not the blocked element 1, which sits second in the
remaining queue. -/
theorem C7_counterexample :
    Event.blocked 1 ∈ (ReportBand.createRenderElements 100 c7S).log ∧
    (ReportBand.createRenderElements 100 c7S).state.sortedIds = [0, 1] ∧
    (ReportBand.createRenderElements 100 c7S).state.sortedIds.head? ≠ some 1 := by
  decide

/-- C7 (amended): an element contributes output only when its predecessor
is absent or complete (every recorded predecessor snapshot is complete);
when an element's predecessor is not complete, the pass stops at once —
the blocked event is the last of the pass, the pass is not done, and the
blocked element stays queued (after any earlier, still-unfinished
elements) to be re-evaluated on the next page. -/
theorem C7_predecessor_gate (containerHeight : Int) (s : BandPassState) :
    (∀ oe, Event.offsetComputed oe ∈ (ReportBand.createRenderElements containerHeight s).log →
       oe.predData = none ∨ ∃ rb b, oe.predData = some (rb, b, true)) ∧
    (∀ eid, Event.blocked eid ∈ (ReportBand.createRenderElements containerHeight s).log →
       (ReportBand.createRenderElements containerHeight s).done = false ∧
       eid ∈ (ReportBand.createRenderElements containerHeight s).state.sortedIds ∧
       ∃ pre, (ReportBand.createRenderElements containerHeight s).log =
         pre ++ [Event.blocked eid]) := by
  constructor
  · intro oe h
    have hg := createRenderElements_sound containerHeight s _ h
    rcases hp : oe.predData with _ | ⟨rb, b, cc⟩
    · exact Or.inl rfl
    · right
      refine ⟨rb, b, ?_⟩
      rw [← hg.2 rb b cc hp]
  · intro eid h
    have hg := createRenderElements_sound containerHeight s _ h
    obtain ⟨hhead, hearly, pre, hlog⟩ := hg
    rcases hq : (createGo s.allowPageBreak containerHeight s.explicitPageBreak s.sortedIds
        ⟨[], s.elems, s.renderElements, [], [], s.pageY, false, []⟩).queue with _ | ⟨q0, qt⟩
    · rw [hq] at hhead
      exact absurd hhead (by simp)
    · rw [hq] at hhead
      obtain rfl := Option.some.inj hhead
      have hne : ((createGo s.allowPageBreak containerHeight s.explicitPageBreak s.sortedIds
          ⟨[], s.elems, s.renderElements, [], [], s.pageY, false, []⟩).st.keptRev.reverse ++
          (createGo s.allowPageBreak containerHeight s.explicitPageBreak s.sortedIds
          ⟨[], s.elems, s.renderElements, [], [], s.pageY, false, []⟩).queue).isEmpty = false := by
        rw [hq]
        simp [List.isEmpty_iff]
      simp only [ReportBand.createRenderElements]
      rw [if_neg (by rw [hearly]; exact Bool.false_ne_true)]
      rw [if_neg (by rw [hne]; exact Bool.false_ne_true)]
      refine ⟨rfl, ?_, pre, hlog⟩
      rw [hq]
      exact List.mem_append_right _ (List.mem_cons_self _ _)

/-- C7 witness: the amended theorem applied to the concrete band of the
counterexample (the blocked element 1 remains queued and the pass is not
done). -/
theorem C7_witness :
    (ReportBand.createRenderElements 100 c7S).done = false ∧
    1 ∈ (ReportBand.createRenderElements 100 c7S).state.sortedIds := by
  have h := (C7_predecessor_gate 100 c7S).2 1 (by decide)
  exact ⟨h.1, h.2.1⟩

/-- The sizing loop started at page count `pc` with `10000 - pc = k > 0`
remaining budget either reports done at some page count below 10000 or
raises the fatal cap error. -/
theorem sizingLoop_spec {σ : Type} (step : Nat → σ → σ × Bool) :
    ∀ (k : Nat) (pc : Nat) (s : σ), pc + k = 10000 → 0 < k →
      (∃ s2 n, pc ≤ n ∧ n < 10000 ∧ sizingLoop step s pc = Except.ok (s2, n)) ∨
      sizingLoop step s pc = Except.error "Too many pages (probably an endless loop)" := by
  intro k
  induction k with
  | zero =>
      intro pc s hk h0
      exact absurd h0 (by omega)
  | succ k ih =>
      intro pc s hk h0
      rw [sizingLoop]
      by_cases hdone : (step pc s).2 = true
      · rw [if_pos hdone]
        exact Or.inl ⟨(step pc s).1, pc, le_refl _, by omega, rfl⟩
      · rw [if_neg hdone]
        by_cases hcap : pc + 1 ≥ 10000
        · rw [if_pos hcap]
          exact Or.inr rfl
        · rw [if_neg hcap]
          rcases ih (pc + 1) (step pc s).1 (by omega) (by omega) with ⟨s2, n, hle, hn, hok⟩ | herr
          · exact Or.inl ⟨s2, n, by omega, hn, hok⟩
          · exact Or.inr herr

/-- C5: the fixed-page sizing phase always terminates — for any content
band state it either reports done at a page count below 10000, or raises
the fatal `RuntimeError` of the hard iteration cap; it never runs
unboundedly (the loop function is total). -/
theorem C5_sizing_terminates (dp : DocumentProperties) (content : BandPassState) :
    (∃ s2 n, n < 10000 ∧ DocumentPDFRenderer.sizingPhase dp content = Except.ok (s2, n)) ∨
    DocumentPDFRenderer.sizingPhase dp content =
      Except.error "Too many pages (probably an endless loop)" := by
  rw [DocumentPDFRenderer.sizingPhase]
  rcases sizingLoop_spec
      (fun pageCount s =>
        let r := ReportBand.createRenderElements (availableContentHeight dp pageCount) s
        (r.state, r.done))
      9999 1 content (by omega) (by omega) with ⟨s2, n, -, hn, hok⟩ | herr
  · exact Or.inl ⟨s2, n, hn, hok⟩
  · exact Or.inr herr

/-- Every run of the emission loop starts at least one page. -/
theorem emissionLoop_ge_one :
    ∀ (renderElements : List RenderItem) (pageNumber : Nat),
      1 ≤ emissionLoop renderElements pageNumber := by
  intro re pn
  induction re, pn using emissionLoop.induct with
  | case1 re pn hstop =>
      rw [emissionLoop, if_pos hstop]
      omega
  | case2 re pn hcont ih =>
      rw [emissionLoop, if_neg hcont]
      exact ih

/-- C8: fixed-page rendering always emits at least one physical page, and
with a completely empty content band exactly one page is started (so
header and footer remain visible). -/
theorem C8_at_least_one_page :
    (∀ (renderElements : List RenderItem) (pageNumber : Nat),
       1 ≤ emissionLoop renderElements pageNumber) ∧
    emissionLoop [] 0 = 1 := by
  constructor
  · exact emissionLoop_ge_one
  · rw [emissionLoop]
    rw [if_neg (by simp)]
    rw [emissionLoop]
    rw [if_pos (by simp [renderPdfConsume])]

end ReportBro
